import Mathlib

/-!
# Shallow embedding of busylib's type-erased HTTP body core

This file embeds `src/http/body.rs`, `src/http/error.rs` and
`src/http/convert.rs` of the busylib repository.

Modelling decisions:

* A byte chunk (`bytes::Bytes`) is a `List Nat` of its bytes.
* A body source (anything implementing `http_body::Body<Data = Bytes>`)
  is modelled by the finite list of frames it yields before completing:
  each frame is either a data chunk or an error (`Except`).  Draining
  (`collect`) stops at the first error frame, so a trailing suffix after
  an error is never observed, matching the Rust consumer contract.
* `BoxError = Box<dyn std::error::Error + Send + Sync>` is modelled by
  `Err`, identified by its `Display` rendering (the only observation the
  core makes of it).  The blanket `Into<BoxError>` conversion of an
  `Error` boxes it and preserves its rendering (`Error.intoBox`).
* Rust panics are modelled as `Option.none`: every function containing a
  potentially panicking call (`Option::unwrap` inside `try_downcast`)
  returns an `Option`, with `none` meaning the panic fired.
* Runtime type identity (`<dyn Any>::downcast_mut`) is modelled by the
  `DynBody` sum: a value whose concrete type is exactly `Body`, exactly
  `BoxBody = UnsyncBoxBody<Bytes, Error>`, or any other concrete body
  type (tagged by a numeric type id that the downcast ignores, so two
  `other` values with the same behaviour are still distinct types).
* An extra `layers` counter on `BoxBody` counts the erasure/boxing
  layers (`boxed_unsync` allocations) around the ultimate source, making
  "reused unchanged" and "re-boxed" distinguishable in the model.
-/

set_option autoImplicit false

namespace BusyLib

/-- A byte chunk (`bytes::Bytes`): a contiguous run of bytes. -/
abbrev Chunk := List Nat

/-- Model of `BoxError = Box<dyn std::error::Error + Send + Sync>`:
a boxed, displayable error value, identified by its `Display` rendering. -/
structure Err where
  render : String
deriving DecidableEq, Repr

/-- `src/http/error.rs`: `pub struct Error { inner: BoxError }`. -/
structure Error where
  inner : Err
deriving DecidableEq, Repr

/-- `Error::new(error: impl Into<BoxError>)` — boxes the cause. -/
def Error.new (e : Err) : Error := ⟨e⟩

/-- The `fmt::Display` impl for `Error`: delegates to `self.inner.fmt(f)`. -/
def Error.display (e : Error) : String := e.inner.render

/-- The `std::error::Error::source` impl for `Error`:
`Some(&*self.inner)`. -/
def Error.source (e : Error) : Option Err := some e.inner

/-- The blanket `Into<BoxError>` conversion applied to an `Error`:
boxing it as `dyn Error` preserves its `Display` rendering, which is
`self.inner`'s rendering. -/
def Error.intoBox (e : Error) : Err := e.inner

deriving instance DecidableEq for Except

/-- `type BoxBody = UnsyncBoxBody<Bytes, Error>`: an erased body whose
error type is `Error`.  `frames` is the sequence of frames it yields;
`layers` counts the nested `boxed_unsync` erasure layers around the
original source (one per boxing). -/
structure BoxBody where
  layers : Nat
  frames : List (Except Error Chunk)
deriving DecidableEq, Repr

/-- `src/http/body.rs`: `pub struct Body(pub BoxBody)`. -/
structure Body where
  box : BoxBody
deriving DecidableEq, Repr

/-- A runtime value of some concrete type implementing
`http_body::Body<Data = Bytes> + Send + 'static` with
`Error: Into<BoxError>`, together with its runtime type identity:
exactly `Body`, exactly `BoxBody`, or any other concrete type (tagged
with a numeric type id; distinct ids are distinct concrete types even
when the frame behaviour coincides). -/
inductive DynBody where
  | isBody (b : Body)
  | isBoxBody (b : BoxBody)
  | other (tid : Nat) (frames : List (Except Err Chunk))
deriving DecidableEq, Repr

/-- The frames of a dynamic body value, with its errors converted into
`BoxError` via the `Into<BoxError>` bound (for `Body`/`BoxBody` values
the error type is `Error`, converted by boxing). -/
def DynBody.rawFrames : DynBody → List (Except Err Chunk)
  | .isBody b => b.box.frames.map (Except.mapError Error.intoBox)
  | .isBoxBody bb => bb.frames.map (Except.mapError Error.intoBox)
  | .other _ fs => fs

/-- The number of erasure layers already wrapped around the value. -/
def DynBody.rawLayers : DynBody → Nat
  | .isBody b => b.box.layers
  | .isBoxBody bb => bb.layers
  | .other _ _ => 0

/-- `<dyn Any>::downcast_mut::<Option<Body>>` succeeds exactly when the
concrete type is `Body`. -/
def asBody : DynBody → Option Body
  | .isBody b => some b
  | _ => none

/-- `<dyn Any>::downcast_mut::<Option<BoxBody>>` succeeds exactly when
the concrete type is `BoxBody`. -/
def asBoxBody : DynBody → Option BoxBody
  | .isBoxBody bb => some bb
  | _ => none

/-- `Body::try_downcast::<Body, K>(k)`.  `let mut k = Some(k)`; if the
downcast of `&mut k` to `Option<Body>` succeeds, `Ok(k.take().unwrap())`,
else `Err(k.unwrap())`.  The outer `Option` models the two `unwrap`
calls: `none` means one of them panicked. -/
def try_downcast_body (k0 : DynBody) : Option (Except DynBody Body) :=
  let k : Option DynBody := some k0
  if (asBody k0).isSome then
    match k.bind asBody with
    | some b => some (.ok b)
    | none => none
  else
    match k with
    | some v => some (.error v)
    | none => none

/-- `Body::try_downcast::<BoxBody, K>(k)`, same shape as
`try_downcast_body` with target type `BoxBody`. -/
def try_downcast_boxbody (k0 : DynBody) : Option (Except DynBody BoxBody) :=
  let k : Option DynBody := some k0
  if (asBoxBody k0).isSome then
    match k.bind asBoxBody with
    | some bb => some (.ok bb)
    | none => none
  else
    match k with
    | some v => some (.error v)
    | none => none

/-- `Body::boxed(body)`:
`Self::try_downcast(body).unwrap_or_else(|body| body.map_err(Error::new).boxed_unsync())`.
The fallback maps the error type via `Error::new` and adds one boxing
layer. -/
def Body.boxed (k : DynBody) : Option BoxBody :=
  match try_downcast_boxbody k with
  | some (.ok bb) => some bb
  | some (.error k2) =>
      some ⟨k2.rawLayers + 1, k2.rawFrames.map (Except.mapError Error.new)⟩
  | none => none

/-- `Body::new(body)`:
`Self::try_downcast(body).unwrap_or_else(|body| Self(Self::boxed(body)))`.
Tries the `Body` downcast first, then the `BoxBody` downcast inside
`boxed`, then falls back to generic boxing. -/
def Body.new (k : DynBody) : Option Body :=
  match try_downcast_body k with
  | some (.ok b) => some b
  | some (.error k2) => (Body.boxed k2).map Body.mk
  | none => none

/-- `BodyExt::collect(...).to_bytes()`: pulls frames in order, stopping
at the first error frame (propagated as-is), otherwise concatenating all
data chunks in yield order. -/
def collectFrames : List (Except Error Chunk) → Except Error Chunk
  | [] => .ok []
  | .ok c :: rest => (collectFrames rest).map (fun acc => c ++ acc)
  | .error e :: _ => .error e

/-- `Body::to_bytes`: `Ok(self.0.collect().await?.to_bytes())`. -/
def Body.to_bytes (b : Body) : Except Error Chunk := collectFrames b.box.frames

/-- Type id used for `http_body_util::Empty<Bytes>` values. -/
def emptyTid : Nat := 0

/-- Type id used for `http_body_util::Full<Bytes>` values. -/
def fullTid : Nat := 1

/-- Type id used for the `StreamBody<S>` adapter values. -/
def streamTid : Nat := 2

/-- `http_body_util::Empty`, modelled from its documented contract:
a body that yields no frames and immediately completes (its error type
is infallible). -/
def Empty.frames : List (Except Err Chunk) := []

/-- `http_body_util::Full::from(buf)`, modelled from its documented
contract: a body that yields the buffer as a single data frame and then
completes (its error type is infallible). -/
def Full.frames (buf : Chunk) : List (Except Err Chunk) := [.ok buf]

/-- `Body::empty()`: `Self::new(http_body_util::Empty::new())`. -/
def Body.empty : Option Body := Body.new (.other emptyTid Empty.frames)

/-- The wrapped `TryStream`: a finite sequence of
`Result<impl Into<Bytes>, impl Into<BoxError>>` items. -/
abbrev TryStream := List (Except Err Chunk)

/-- `StreamBody::poll_frame` semantics over the whole stream: each
`Some(Ok(chunk))` becomes a data frame `Frame::data(chunk.into())`, each
`Some(Err(err))` becomes an error frame `Err(Error::new(err))`, `None`
ends the body. -/
def StreamBody.frames (s : TryStream) : List (Except Error Chunk) :=
  s.map (fun f =>
    match f with
    | .ok c => .ok c
    | .error e => .error (Error.new e))

/-- `Body::from_stream(stream)`: `Self::new(StreamBody { stream })`.
The adapter is a fresh concrete type (type id `streamTid`) whose frames
are given by `StreamBody.frames`; its body error type is `Error`, so
the `Into<BoxError>` bound converts those errors via `Error.intoBox`. -/
def Body.from_stream (s : TryStream) : Option Body :=
  Body.new (.other streamTid
    ((StreamBody.frames s).map (Except.mapError Error.intoBox)))

/-- `Cow<'static, T>`: borrowed or owned. -/
inductive Cow (α : Type) where
  | borrowed (v : α)
  | owned (v : α)
deriving DecidableEq, Repr

/-- `Cow::into` the underlying value. -/
def Cow.get {α : Type} : Cow α → α
  | .borrowed v => v
  | .owned v => v

/-- The UTF-8 bytes of a Rust `str`/`String`. -/
def strBytes (s : String) : Chunk := s.toUTF8.data.toList.map UInt8.toNat

/-- `impl From<&'static [u8]> for Body`: `Self::new(Full::from(buf))`. -/
def Body.fromStaticSlice (v : Chunk) : Option Body :=
  Body.new (.other fullTid (Full.frames v))

/-- `impl From<Cow<'static, [u8]>> for Body`. -/
def Body.fromCowBytes (v : Cow Chunk) : Option Body :=
  Body.new (.other fullTid (Full.frames v.get))

/-- `impl From<Vec<u8>> for Body`. -/
def Body.fromVec (v : Chunk) : Option Body :=
  Body.new (.other fullTid (Full.frames v))

/-- `impl From<&'static str> for Body`. -/
def Body.fromStaticStr (v : String) : Option Body :=
  Body.new (.other fullTid (Full.frames (strBytes v)))

/-- `impl From<Cow<'static, str>> for Body`. -/
def Body.fromCowStr (v : Cow String) : Option Body :=
  Body.new (.other fullTid (Full.frames (strBytes v.get)))

/-- `impl From<String> for Body`. -/
def Body.fromString (v : String) : Option Body :=
  Body.new (.other fullTid (Full.frames (strBytes v)))

/-- `impl From<Bytes> for Body`. -/
def Body.fromBytes (v : Chunk) : Option Body :=
  Body.new (.other fullTid (Full.frames v))

/-- `impl From<()> for Body`: `Self::empty()`. -/
def Body.fromUnit (_ : Unit) : Option Body := Body.empty

/-- `impl From<BoxBody> for Body`: `Body(body)`. -/
def Body.fromBoxBody (bb : BoxBody) : Body := ⟨bb⟩

/-- The family of inputs accepted by the seven static-value `From`
constructors generated by the `body_from_impl!` invocations. -/
inductive StaticInput where
  | staticSlice (v : Chunk)
  | cowBytes (v : Cow Chunk)
  | vecBytes (v : Chunk)
  | staticStr (v : String)
  | cowStr (v : Cow String)
  | ownedString (v : String)
  | bytesVal (v : Chunk)
deriving DecidableEq, Repr

/-- The bytes of a static input. -/
def StaticInput.bytes : StaticInput → Chunk
  | .staticSlice v => v
  | .cowBytes v => v.get
  | .vecBytes v => v
  | .staticStr v => strBytes v
  | .cowStr v => strBytes v.get
  | .ownedString v => strBytes v
  | .bytesVal v => v

/-- Dispatch a static input to its `From` constructor. -/
def Body.fromInput : StaticInput → Option Body
  | .staticSlice v => Body.fromStaticSlice v
  | .cowBytes v => Body.fromCowBytes v
  | .vecBytes v => Body.fromVec v
  | .staticStr v => Body.fromStaticStr v
  | .cowStr v => Body.fromCowStr v
  | .ownedString v => Body.fromString v
  | .bytesVal v => Body.fromBytes v

/-- `http::Request<B>` / `http::Response<B>`: protocol metadata (the
`Parts`, opaque to this core, a type parameter here) paired with exactly
one payload. -/
structure Envelope (P : Type) (B : Type) where
  parts : P
  body : B
deriving DecidableEq

/-- `into_parts()`. -/
def Envelope.into_parts {P B : Type} (e : Envelope P B) : P × B :=
  (e.parts, e.body)

/-- `from_parts(p, b)`. -/
def Envelope.from_parts {P B : Type} (p : P) (b : B) : Envelope P B :=
  ⟨p, b⟩

/-- `src/http/convert.rs`, `FromBytes::from_bytes` (both the
`HttpRequest` and `HttpResponse` impls, identical code):
`let (p, b) = wrapper.into_parts(); Self::from_parts(p, Body::from(b))`. -/
def FromBytes.from_bytes {P : Type} (w : Envelope P Chunk) :
    Option (Envelope P Body) :=
  let pb := w.into_parts
  (Body.fromBytes pb.2).map (Envelope.from_parts pb.1)

/-- `src/http/convert.rs`, `ToBytes::to_bytes` (both impls):
`let (p, b) = self.into_parts(); Ok(from_parts(p, b.to_bytes().await?))`. -/
def ToBytes.to_bytes {P : Type} (e : Envelope P Body) :
    Except Error (Envelope P Chunk) :=
  let pb := e.into_parts
  (pb.2.to_bytes).map (Envelope.from_parts pb.1)

/-! ## Helper lemmas -/

/-- Normal form of `Body::new` on an input whose concrete type is
neither `Body` nor `BoxBody`: one fresh boxing layer, errors mapped by
`Error::new`. -/
theorem new_other (tid : Nat) (fs : List (Except Err Chunk)) :
    Body.new (.other tid fs) =
      some (Body.mk ⟨1, fs.map (Except.mapError Error.new)⟩) := rfl

/-- Converting `StreamBody` frame errors into `BoxError` and re-wrapping
them with `Error::new` restores the original frames (renderings are
preserved by boxing). -/
theorem streamFrames_mapError_roundtrip (s : TryStream) :
    ((StreamBody.frames s).map (Except.mapError Error.intoBox)).map
      (Except.mapError Error.new) = StreamBody.frames s := by
  induction s with
  | nil => rfl
  | cons f rest ih =>
      simp only [StreamBody.frames, List.map_cons] at ih ⊢
      rw [ih]
      cases f <;> rfl

/-- Normal form of `Body::from_stream`. -/
theorem from_stream_eq (s : TryStream) :
    Body.from_stream s = some (Body.mk ⟨1, StreamBody.frames s⟩) := by
  rw [Body.from_stream, new_other, streamFrames_mapError_roundtrip]

/-- The stream adapter maps an all-data stream to all-data frames. -/
theorem streamFrames_ok (chunks : List Chunk) :
    StreamBody.frames (chunks.map Except.ok) = chunks.map Except.ok := by
  induction chunks with
  | nil => rfl
  | cons c rest ih => simp [StreamBody.frames, ih]

/-- The stream adapter turns the first stream error into
`Error::new` of it, after the data frames before it. -/
theorem streamFrames_error (pre : List Chunk) (e0 : Err) (rest : TryStream) :
    StreamBody.frames (pre.map Except.ok ++ .error e0 :: rest) =
      pre.map Except.ok ++ .error (Error.new e0) :: StreamBody.frames rest := by
  induction pre with
  | nil => rfl
  | cons c ps ih => simp [StreamBody.frames, ih]

/-- Collecting error-free frames concatenates the chunks in order. -/
theorem collectFrames_ok (chunks : List Chunk) :
    collectFrames (chunks.map Except.ok) = .ok chunks.flatten := by
  induction chunks with
  | nil => rfl
  | cons c rest ih => simp [collectFrames, ih, Except.map]

/-- Collecting stops at the first error frame and returns it; the
chunks pulled before it are discarded. -/
theorem collectFrames_error (pre : List Chunk) (e : Error)
    (rest : List (Except Error Chunk)) :
    collectFrames (pre.map Except.ok ++ .error e :: rest) = .error e := by
  induction pre with
  | nil => rfl
  | cons c ps ih => simp [collectFrames, ih, Except.map]

/-! ## Claim theorems -/

/-- C1: `Body::new` (via `try_downcast`) is exact-type: an input whose
concrete type is exactly `Body` is returned unwrapped and unchanged; an
input whose concrete type is exactly `BoxBody` is reused as-is inside
the `Body` newtype (no new boxing layer, frames untouched) — the `Body`
check in `new` runs before the `BoxBody` check in `boxed`; every input
of any other concrete type (any type id, even with identical frame
behaviour) falls back to generic boxing: one fresh erasure layer and
errors wrapped by `Error::new`. -/
theorem body_new_downcast_exact :
    (∀ b : Body, Body.new (.isBody b) = some b) ∧
    (∀ bb : BoxBody, Body.new (.isBoxBody bb) = some (Body.mk bb)) ∧
    (∀ (tid : Nat) (fs : List (Except Err Chunk)),
      Body.new (.other tid fs) =
        some (Body.mk ⟨1, fs.map (Except.mapError Error.new)⟩)) :=
  ⟨fun _ => rfl, fun _ => rfl, fun _ _ => rfl⟩

/-- C2: draining the `Body` built from any of the seven static inputs
yields exactly the input's bytes; in particular `"hello"` drains to
`[104, 101, 108, 108, 111]`. -/
theorem static_input_drain_exact :
    (∀ v : StaticInput,
      (Body.fromInput v).map Body.to_bytes = some (.ok v.bytes)) ∧
    (Body.fromStaticStr "hello").map Body.to_bytes =
      some (.ok [104, 101, 108, 108, 111]) := by
  constructor
  · intro v
    cases v <;>
      simp [Body.fromInput, Body.fromStaticSlice, Body.fromCowBytes,
        Body.fromVec, Body.fromStaticStr, Body.fromCowStr, Body.fromString,
        Body.fromBytes, Full.frames, new_other, Body.to_bytes, collectFrames,
        Except.map, Except.mapError, StaticInput.bytes]
  · decide

/-- C3: wrapping a finite error-free chunk sequence with
`Body::from_stream` and draining with `to_bytes` yields the
concatenation of the chunks in production order; in particular
`["ab", "cd", "ef"]` drains to `"abcdef"`. -/
theorem stream_drain_concat :
    (∀ chunks : List Chunk,
      (Body.from_stream (chunks.map Except.ok)).map Body.to_bytes =
        some (.ok chunks.flatten)) ∧
    (Body.from_stream
        [.ok [97, 98], .ok [99, 100], .ok [101, 102]]).map Body.to_bytes =
      some (.ok [97, 98, 99, 100, 101, 102]) := by
  constructor
  · intro chunks
    rw [from_stream_eq]
    simp [Body.to_bytes, streamFrames_ok, collectFrames_ok]
  · decide

/-- C4: draining a `Body` built from a stream that yields some chunks
and then fails returns exactly the error built from the original stream
error (whose cause is that original error); the result is the error
constructor, so no partial buffer of the chunks pulled before the
failure is returned. -/
theorem stream_drain_error_propagates (pre : List Chunk) (e0 : Err)
    (rest : TryStream) :
    (Body.from_stream (pre.map Except.ok ++ .error e0 :: rest)).map
        Body.to_bytes = some (.error (Error.new e0)) ∧
    Error.source (Error.new e0) = some e0 := by
  constructor
  · rw [from_stream_eq]
    simp [Body.to_bytes, streamFrames_error, collectFrames_error]
  · rfl

/-- C5: for an envelope whose `Body` drains successfully, `to_bytes`
returns the same metadata with the drained buffer, and `from_bytes` of
that result cannot fail and rebuilds an envelope with identical
metadata whose `Body` drains to the same content as the original. -/
theorem envelope_roundtrip_via_bytes {P : Type} (e : Envelope P Body)
    (buf : Chunk) (h : e.body.to_bytes = .ok buf) :
    ToBytes.to_bytes e = .ok (Envelope.from_parts e.parts buf) ∧
    ∃ e2 : Envelope P Body,
      FromBytes.from_bytes (Envelope.from_parts e.parts buf) = some e2 ∧
      e2.parts = e.parts ∧ e2.body.to_bytes = e.body.to_bytes := by
  refine ⟨?_, ⟨e.parts, Body.mk ⟨1, [.ok buf]⟩⟩, ?_, rfl, ?_⟩
  · simp [ToBytes.to_bytes, Envelope.into_parts, Envelope.from_parts, h,
      Except.map]
  · rfl
  · rw [h]
    simp [Body.to_bytes, collectFrames, Except.map]

/-- Witness for C5 at a concrete envelope. -/
theorem envelope_roundtrip_via_bytes_witness :
    ToBytes.to_bytes (⟨0, Body.mk ⟨1, [Except.ok [1, 2]]⟩⟩ : Envelope Nat Body) =
      .ok (Envelope.from_parts 0 [1, 2]) ∧
    ∃ e2 : Envelope Nat Body,
      FromBytes.from_bytes (Envelope.from_parts 0 [1, 2]) = some e2 ∧
      e2.parts = 0 ∧
      e2.body.to_bytes = (Body.mk ⟨1, [Except.ok [1, 2]]⟩).to_bytes :=
  envelope_roundtrip_via_bytes ⟨0, Body.mk ⟨1, [Except.ok [1, 2]]⟩⟩ [1, 2]
    (by decide)

/-- C6: each of the seven static-value constructors produces a `Body`
whose source yields exactly one data chunk equal to the input's bytes
and then completes. -/
theorem static_input_single_chunk (v : StaticInput) :
    Body.fromInput v = some (Body.mk ⟨1, [Except.ok v.bytes]⟩) := by
  cases v <;> rfl

/-- C7: the error returned by a failed drain of a stream-backed `Body`
renders (`Display`) exactly as the original stream error it wraps, and
its `source` chain preserves that original error. -/
theorem drain_error_display_and_source (pre : List Chunk) (e0 : Err)
    (rest : TryStream) :
    ∃ er : Error,
      (Body.from_stream (pre.map Except.ok ++ .error e0 :: rest)).map
          Body.to_bytes = some (.error er) ∧
      Error.display er = e0.render ∧ Error.source er = some e0 := by
  refine ⟨Error.new e0, ?_, rfl, rfl⟩
  rw [from_stream_eq]
  simp [Body.to_bytes, streamFrames_error, collectFrames_error]

/-- C8: draining `Body::empty()` yields the zero-length buffer, and the
`From<()>` constructor produces exactly `Body::empty()`. -/
theorem empty_drain_and_unit :
    Body.empty.map Body.to_bytes = some (.ok []) ∧
    Body.fromUnit () = Body.empty :=
  ⟨rfl, rfl⟩

/-- C9: construction is total and panic-free: both `try_downcast`
instantiations never hit their `unwrap` panic paths, and `Body::new`,
`Body::empty`, `Body::from_stream`, the seven static `From`
constructors, and `from_bytes` succeed on every input. -/
theorem construction_total_no_panic :
    (∀ k : DynBody, (try_downcast_body k).isSome = true) ∧
    (∀ k : DynBody, (try_downcast_boxbody k).isSome = true) ∧
    (∀ k : DynBody, (Body.new k).isSome = true) ∧
    Body.empty.isSome = true ∧
    (∀ s : TryStream, (Body.from_stream s).isSome = true) ∧
    (∀ v : StaticInput, (Body.fromInput v).isSome = true) ∧
    (∀ (P : Type) (w : Envelope P Chunk),
      (FromBytes.from_bytes w).isSome = true) := by
  refine ⟨fun k => ?_, fun k => ?_, fun k => ?_, rfl, fun s => ?_,
    fun v => ?_, fun P w => ?_⟩
  · cases k <;> rfl
  · cases k <;> rfl
  · cases k <;> rfl
  · rw [from_stream_eq]; rfl
  · cases v <;> rfl
  · rfl

/-- C10: at the buffer-backed level, `from_bytes` then `to_bytes`
returns `Ok` of an envelope with the identical metadata and the
identical byte buffer. -/
theorem buffer_roundtrip_exact (P : Type) (p : P) (buf : Chunk) :
    (FromBytes.from_bytes (Envelope.from_parts p buf)).map ToBytes.to_bytes =
      some (.ok (Envelope.from_parts p buf)) := by
  simp [FromBytes.from_bytes, ToBytes.to_bytes, Body.fromBytes, Full.frames,
    new_other, Envelope.into_parts, Envelope.from_parts, Body.to_bytes,
    collectFrames, Except.map, Except.mapError]

end BusyLib
